import Mathlib

/-!
# Verification of the swg-js event dispatch and propensity-scoring pipeline

Shallow embedding of `src/runtime/client-event-manager.js` and
`src/runtime/propensity-server.js`.

JavaScript values are modelled by the inductive type `JSVal`.  Numbers are
restricted to integers (the code under verification only compares numeric
enum codes and score types; fractional values play no role).  Exceptions are
modelled with `Except String`; the asynchronous readiness gate of the event
manager is elided (all claims considered here concern the behaviour of a
single dispatch after the gate has opened, which the JS code runs as one
synchronous block).
-/

/-- Model of a JavaScript value.  `eventParams` marks an instance of the
internal `EventParams` class from `proto/api_messages` (distinguishable in JS
via `instanceof`, but answering `'[object Object]'` to
`Object.prototype.toString`). -/
inductive JSVal where
  | undefined : JSVal
  | null : JSVal
  | bool (b : Bool) : JSVal
  | num (n : Int) : JSVal
  | str (s : String) : JSVal
  | obj (fields : List (String × JSVal)) : JSVal
  | arr (elems : List JSVal) : JSVal
  | eventParams (fields : List (String × JSVal)) : JSVal
deriving Repr

/-- Modelled from the spec: `isObject` from `utils/types` (not under `src/`);
true exactly for plain-object mappings, i.e. values whose
`Object.prototype.toString` is `'[object Object]'` (class instances
included, arrays and scalars excluded). -/
def isObject : JSVal → Bool
  | .obj _ => true
  | .eventParams _ => true
  | _ => false

/-- Modelled from the spec: `isBoolean` from `utils/types` (not under
`src/`). -/
def isBoolean : JSVal → Bool
  | .bool _ => true
  | _ => false

/-- JavaScript loose equality with `null` (`v == null`): true exactly for
`null` and `undefined`. -/
def isLooseNull : JSVal → Bool
  | .null => true
  | .undefined => true
  | _ => false

/-- A value on which property reads do not throw (anything but `null` and
`undefined`). -/
def nonNullish : JSVal → Bool
  | .null => false
  | .undefined => false
  | _ => true

/-- JavaScript truthiness (`!!v`).  `NaN` is not representable in the model. -/
def jsTruthy : JSVal → Bool
  | .undefined => false
  | .null => false
  | .bool b => b
  | .num n => n != 0
  | .str s => !s.isEmpty
  | .obj _ => true
  | .arr _ => true
  | .eventParams _ => true

/-- Property read on a value where JavaScript would not throw; reading any
property of a scalar yields `undefined`, reading an absent key of a mapping
yields `undefined`. -/
def jsGet (v : JSVal) (k : String) : JSVal :=
  match v with
  | .obj fields => (fields.lookup k).getD .undefined
  | .eventParams fields => (fields.lookup k).getD .undefined
  | _ => .undefined

/-- Property read as executed by JavaScript: throws a `TypeError` on `null`
and `undefined`, otherwise yields `jsGet`. -/
def jsGetE (v : JSVal) (k : String) : Except String JSVal :=
  match v with
  | .undefined =>
      .error ("TypeError: Cannot read properties of undefined (reading " ++ k ++ ")")
  | .null =>
      .error ("TypeError: Cannot read properties of null (reading " ++ k ++ ")")
  | _ => .ok (jsGet v k)

/-- JavaScript strict equality test of a value against a number
(`v === n` with `n` a numeric enum constant). -/
def isNumVal (v : JSVal) (n : Int) : Bool :=
  match v with
  | .num m => m == n
  | _ => false

/-- Property write (`o[k] = v`): updates the existing key in place or appends
it, as JavaScript property assignment does on a plain object. -/
def jsSetField : List (String × JSVal) → String → JSVal → List (String × JSVal)
  | [], k, v => [(k, v)]
  | (k', v') :: rest, k, v =>
      if k' == k then (k, v) :: rest else (k', v') :: jsSetField rest k v

/-- Property write on a mapping value. -/
def jsSetProp (o : JSVal) (k : String) (v : JSVal) : JSVal :=
  match o with
  | .obj fields => .obj (jsSetField fields k v)
  | .eventParams fields => .eventParams (jsSetField fields k v)
  | _ => o

/-- JavaScript `ToNumber` on a string, restricted to the integer fragment of
the model: surrounding whitespace ignored, empty string is `0`, optional
sign followed by digits; anything else is `NaN` (`none`). -/
def strToNum? (s : String) : Option Int :=
  let t := s.trim
  if t.isEmpty then some 0
  else
    let t2 := if t.startsWith "+" then t.drop 1 else t
    if t2.isEmpty then none else t2.toInt?

/-- String coercion of a scalar used by `Array.prototype.join` for the
elements of an array; `null` and `undefined` join as the empty string and
nested structures are flattened the way the model's `jsToStr` flattens
them. -/
def jsScalarToStr : JSVal → String
  | .undefined => ""
  | .null => ""
  | .bool b => if b then "true" else "false"
  | .num n => toString n
  | .str s => s
  | .obj _ => "[object Object]"
  | .eventParams _ => "[object Object]"
  | .arr _ => ""

/-- JavaScript string coercion (`String(v)`); arrays join their elements with
commas (one level deep in the model — the code under verification never
stringifies nested arrays). -/
def jsToStr : JSVal → String
  | .undefined => "undefined"
  | .null => "null"
  | .bool b => if b then "true" else "false"
  | .num n => toString n
  | .str s => s
  | .obj _ => "[object Object]"
  | .eventParams _ => "[object Object]"
  | .arr xs => String.intercalate "," (xs.map jsScalarToStr)

/-- Numeric view of a value for loose equality against a number: `none`
plays `NaN` (and also covers `null`/`undefined`, which are never loosely
equal to a number). -/
def jsToNumericForEq : JSVal → Option Int
  | .num m => some m
  | .bool b => some (if b then 1 else 0)
  | .str s => strToNum? s
  | .arr xs => strToNum? (jsToStr (.arr xs))
  | .obj _ => none
  | .eventParams _ => none
  | .null => none
  | .undefined => none

/-- JavaScript loose equality of a value against a number literal
(`v == n`). -/
def jsLooseEqNum (v : JSVal) (n : Int) : Bool :=
  jsToNumericForEq v == some n

/-! ## Event taxonomy

`AnalyticsEvent`, `EventOriginator` and `FilterResult` come from
`proto/api_messages` and `api/client-event-manager-api`, which are not under
`src/`; they are modelled from the spec as closed enumerations of numeric
codes. -/

/-- Modelled from the spec: representative members of the closed
`AnalyticsEvent` enumeration (`proto/api_messages` is not under `src/`). -/
def AnalyticsEvent.UNKNOWN : Int := 0

/-- Modelled from the spec: an `AnalyticsEvent` member that has an external
publisher-event equivalent. -/
def AnalyticsEvent.IMPRESSION_PAYWALL : Int := 1

/-- Modelled from the spec: the special-cased subscription-state event. -/
def AnalyticsEvent.EVENT_SUBSCRIPTION_STATE : Int := 2

/-- Modelled from the spec: the values of the closed `AnalyticsEvent`
enumeration. -/
def analyticsEventValues : List Int := [0, 1, 2]

/-- Modelled from the spec: `EventOriginator` member codes
(`proto/api_messages` is not under `src/`). -/
def EventOriginator.UNKNOWN_CLIENT : Int := 0

/-- Modelled from the spec: the core runtime's own originator code. -/
def EventOriginator.SWG_CLIENT : Int := 1

/-- Modelled from the spec: the AMP client originator code. -/
def EventOriginator.AMP_CLIENT : Int := 2

/-- Modelled from the spec: the propensity client originator code. -/
def EventOriginator.PROPENSITY_CLIENT : Int := 3

/-- Modelled from the spec: the server-side originator code. -/
def EventOriginator.SWG_SERVER : Int := 4

/-- Modelled from the spec: the publisher client originator code. -/
def EventOriginator.PUBLISHER_CLIENT : Int := 5

/-- Modelled from the spec: the showcase client originator code. -/
def EventOriginator.SHOWCASE_CLIENT : Int := 6

/-- Modelled from the spec: the values of the closed `EventOriginator`
enumeration. -/
def eventOriginatorValues : List Int := [0, 1, 2, 3, 4, 5, 6]

/-- Modelled from the spec: `FilterResult.PROCEED_EVENT`
(`api/client-event-manager-api` is not under `src/`). -/
def FilterResult.PROCEED_EVENT : Int := 0

/-- Modelled from the spec: `FilterResult.CANCEL_EVENT`. -/
def FilterResult.CANCEL_EVENT : Int := 1

/-- Modelled from the spec: `isEnumValue` from `utils/types` (not under
`src/`): membership of a value among the (numeric) values of a closed
enumeration. -/
def isEnumValue (values : List Int) (v : JSVal) : Bool :=
  match v with
  | .num n => values.contains n
  | _ => false

/-! ## Event manager (`client-event-manager.js`) -/

/-- `createEventErrorMessage` from `client-event-manager.js`. -/
def createEventErrorMessage (valueName : String) (value : JSVal) : String :=
  "Event has an invalid " ++ valueName ++ "(" ++ jsToStr value ++ ")"

/-- `validateEvent` from `client-event-manager.js`: throws (returns
`.error`) if the event is not a plain object, its `eventType` is not an
`AnalyticsEvent` member, its `eventOriginator` is not an `EventOriginator`
member, its `additionalParameters` is neither a mapping nor nullish, or its
`isFromUserAction` is neither nullish nor a boolean. -/
def validateEvent (event : JSVal) : Except String Unit :=
  if !isObject event then
    .error "Event must be a valid object"
  else if !isEnumValue analyticsEventValues (jsGet event "eventType") then
    .error (createEventErrorMessage "eventType" (jsGet event "eventType"))
  else if !isEnumValue eventOriginatorValues (jsGet event "eventOriginator") then
    .error (createEventErrorMessage "eventOriginator" (jsGet event "eventOriginator"))
  else if !isObject (jsGet event "additionalParameters")
        && !isLooseNull (jsGet event "additionalParameters") then
    .error (createEventErrorMessage "additionalParameters" (jsGet event "additionalParameters"))
  else if !isLooseNull (jsGet event "isFromUserAction")
        && !isBoolean (jsGet event "isFromUserAction") then
    .error (createEventErrorMessage "isFromUserAction" (jsGet event "isFromUserAction"))
  else
    .ok ()

/-- Outcome of invoking a registered filterer or listener: it either returns
a value or throws. -/
inductive CallOutcome where
  | returns (v : JSVal) : CallOutcome
  | throws (e : String) : CallOutcome
deriving Repr

/-- A registered filterer: receives the event, returns a verdict (or
throws). -/
abbrev Filterer := JSVal → CallOutcome

/-- A registered listener: receives the event and the optional event params
(or throws). -/
abbrev Listener := JSVal → JSVal → CallOutcome

/-- Observable outcome of one dispatch (`handleEvent_`): which filterers ran
(by registration index), whether a filterer cancelled the event, which
listeners ran, and how many consumer faults were caught and logged. -/
structure DispatchResult where
  filterersRun : List Nat
  cancelled : Bool
  listenersRun : List Nat
  faultsLogged : Nat
deriving Repr

/-- The filterer loop of `handleEvent_`: walk the filterers in order from
registration index `k`; a throw is caught and logged and the walk continues;
a returned value strictly equal to `FilterResult.CANCEL_EVENT` stops the
walk with a cancellation.  Yields (indices invoked, cancelled?, faults
logged). -/
def runFilterers (ev : JSVal) (k : Nat) : List Filterer → List Nat × Bool × Nat
  | [] => ([], false, 0)
  | f :: rest =>
    match f ev with
    | .throws _ =>
        let r := runFilterers ev (k + 1) rest
        (k :: r.1, r.2.1, r.2.2 + 1)
    | .returns v =>
        if isNumVal v FilterResult.CANCEL_EVENT then
          ([k], true, 0)
        else
          let r := runFilterers ev (k + 1) rest
          (k :: r.1, r.2.1, r.2.2)

/-- The listener loop of `handleEvent_`: every listener is invoked with
(event, params); a throw is caught and logged.  Yields (indices invoked,
faults logged). -/
def runListeners (ev params : JSVal) (k : Nat) : List Listener → List Nat × Nat
  | [] => ([], 0)
  | l :: rest =>
    let r := runListeners ev params (k + 1) rest
    match l ev params with
    | .throws _ => (k :: r.1, r.2 + 1)
    | .returns _ => (k :: r.1, r.2)

/-- `ClientEventManager.handleEvent_`: after the readiness gate, run the
filterer chain; if no filterer cancelled, run every listener. -/
def handleEvent_ (filterers : List Filterer) (listeners : List Listener)
    (ev params : JSVal) : DispatchResult :=
  let fr := runFilterers ev 0 filterers
  if fr.2.1 then
    ⟨fr.1, true, [], fr.2.2⟩
  else
    let lr := runListeners ev params 0 listeners
    ⟨fr.1, false, lr.1, fr.2.2 + lr.2⟩

/-- `ClientEventManager.logEvent`: validate synchronously; on success the
dispatch is scheduled (modelled as running it and returning its outcome), on
failure the validation error propagates to the caller and no dispatch ever
starts. -/
def logEvent (filterers : List Filterer) (listeners : List Listener)
    (ev params : JSVal) : Except String DispatchResult :=
  match validateEvent ev with
  | .error e => .error e
  | .ok _ => .ok (handleEvent_ filterers listeners ev params)

/-! ## Propensity server (`propensity-server.js`) -/

/-- Modelled from the spec: `analyticsEventToPublisherEvent` from
`runtime/event-type-mapping` (not under `src/`): a fixed lookup from the
internal `AnalyticsEvent` vocabulary to the external publisher-event
vocabulary; events with no external equivalent map to `none`. -/
def analyticsEventToPublisherEvent (eventType : JSVal) : Option Int :=
  match eventType with
  | .num n => if n == AnalyticsEvent.IMPRESSION_PAYWALL then some 1 else none
  | _ => none

/-- An outbound request issued by the propensity server.  A
`subscriptionState` request is one `fetch` of `sendSubscriptionState`
(carrying the raw `state` and `productsOrSkus` values it encodes); an
`event` request is one `fetch` of `sendEvent_` (carrying the publisher
event code and the parameter value handed to `JSON.stringify`). -/
inductive Request where
  | subscriptionState (state productsOrSkus : JSVal) : Request
  | event (propEvent : Int) (context : JSVal) : Request
deriving Repr

/-- The parameter-shaping step of `PropensityServer.handleClientEvent_`
(the generic-event forwarding branch): strip an `EventParams` instance to
`undefined`; if `isFromUserAction` is a boolean, ensure a plain-object
mapping and write `is_active` into it.  Returns (value handed to
`JSON.stringify`, value of the caller's `event.additionalParameters` slot
after the step). -/
def forwardedParams (ap ifua : JSVal) : JSVal × JSVal :=
  let stripped :=
    match ap with
    | .eventParams _ => JSVal.undefined
    | _ => ap
  if isBoolean ifua then
    if !isObject stripped then
      (JSVal.obj [("is_active", ifua)], ap)
    else
      -- Here `stripped` was not reassigned, so the local variable still
      -- aliases the caller's own mapping: the property write is visible
      -- through `event.additionalParameters`.
      let updated := jsSetProp stripped "is_active" ifua
      (updated, updated)
  else
    (stripped, ap)

/-- `PropensityServer.handleClientEvent_`: drop `SHOWCASE_CLIENT` events;
drop everything but `PROPENSITY_CLIENT` events when the live
`enablePropensity` flag is falsy; route `EVENT_SUBSCRIPTION_STATE` to one
subscription-state request and stop; otherwise translate the event type and,
if it has a publisher equivalent, issue one generic event request with the
shaped parameters.  Returns the requests issued and the value of
`event.additionalParameters` after the call. -/
def handleClientEvent_ (enablePropensity : JSVal) (event : JSVal) :
    Except String (List Request × JSVal) := do
  let originator ← jsGetE event "eventOriginator"
  if isNumVal originator EventOriginator.SHOWCASE_CLIENT then
    return ([], jsGet event "additionalParameters")
  else if !jsTruthy enablePropensity
      && !isNumVal originator EventOriginator.PROPENSITY_CLIENT then
    return ([], jsGet event "additionalParameters")
  else
    let eventType ← jsGetE event "eventType"
    if isNumVal eventType AnalyticsEvent.EVENT_SUBSCRIPTION_STATE then
      let ap ← jsGetE event "additionalParameters"
      let state ← jsGetE ap "state"
      let productsOrSkus ← jsGetE ap "productsOrSkus"
      return ([Request.subscriptionState state productsOrSkus],
              jsGet event "additionalParameters")
    else
      match analyticsEventToPublisherEvent eventType with
      | none => return ([], jsGet event "additionalParameters")
      | some propEvent =>
        let ap ← jsGetE event "additionalParameters"
        let ifua ← jsGetE event "isFromUserAction"
        let (serialized, slotAfter) := forwardedParams ap ifua
        return ([Request.event propEvent serialized], slotAfter)

/-- The iteration count of the loop
`for (let i = 0; i < scores.length; i++)` in
`parsePropensityResponse_`: reading `.length` of `undefined`/`null` throws;
an array or string yields its length; a mapping yields its `length` field
when numeric; any other shape makes the bound `undefined`, so the loop body
never runs. -/
def jsLengthForLoop : JSVal → Except String Nat
  | .undefined =>
      .error "TypeError: Cannot read properties of undefined (reading length)"
  | .null =>
      .error "TypeError: Cannot read properties of null (reading length)"
  | .arr xs => .ok xs.length
  | .str s => .ok s.length
  | .obj fields =>
      match (fields.lookup "length").getD .undefined with
      | .num n => .ok n.toNat
      | _ => .ok 0
  | .eventParams fields =>
      match (fields.lookup "length").getD .undefined with
      | .num n => .ok n.toNat
      | _ => .ok 0
  | _ => .ok 0

/-- Indexed read `scores[i]`. -/
def jsIndex (v : JSVal) (i : Nat) : JSVal :=
  match v with
  | .arr xs => xs.getD i .undefined
  | .str s => .str (String.mk ((s.toList.drop i).take 1))
  | .obj fields => (fields.lookup (toString i)).getD .undefined
  | .eventParams fields => (fields.lookup (toString i)).getD .undefined
  | _ => .undefined

/-- One loop body of `parsePropensityResponse_`: a truthy `score` field
yields `{product, score: {value, bucketed}}` with `bucketed` the result of
`score_type == 2`; otherwise `{product, error: error_message}`. -/
def mkScoreDetail (result : JSVal) : Except String JSVal := do
  let score ← jsGetE result "score"
  if jsTruthy score then
    let st ← jsGetE result "score_type"
    let product ← jsGetE result "product"
    return .obj [("product", product),
                 ("score", .obj [("value", score),
                                 ("bucketed", .bool (jsLooseEqNum st 2))])]
  else
    let product ← jsGetE result "product"
    let em ← jsGetE result "error_message"
    return .obj [("product", product), ("error", em)]

/-- The score-building loop of `parsePropensityResponse_`, starting at index
`i` with `count` iterations left. -/
def buildScoreDetails (scores : JSVal) (i : Nat) : Nat → Except String (List JSVal)
  | 0 => .ok []
  | count + 1 => do
    let d ← mkScoreDetail (jsIndex scores i)
    let rest ← buildScoreDetails scores (i + 1) count
    return d :: rest

/-- `PropensityServer.parsePropensityResponse_`.  A falsy `header` yields the
`'No valid response'` error result; a truthy `header` with falsy `ok` yields
an error result carrying `response.error`; a truthy `ok` runs the score loop
(which throws a `TypeError` when `scores` is `undefined` or `null`) and
yields the success result. -/
def parsePropensityResponse_ (response : JSVal) : Except String JSVal := do
  let header ← jsGetE response "header"
  if !jsTruthy header then
    return .obj [("header", .obj [("ok", .bool false)]),
                 ("body", .obj [("error", .str "No valid response")])]
  else
    let ok ← jsGetE header "ok"
    if jsTruthy ok then
      let scores ← jsGetE response "scores"
      let len ← jsLengthForLoop scores
      let scoreDetails ← buildScoreDetails scores 0 len
      return .obj [("header", .obj [("ok", .bool true)]),
                   ("body", .obj [("scores", .arr scoreDetails)])]
    else
      return .obj [("header", .obj [("ok", .bool false)]),
                   ("body", .obj [("error", jsGet response "error")])]

/-- `PropensityServer.getPropensity` after the network fetch: the JSON body
of the response is handed to `parsePropensityResponse_`; an exception there
rejects the promise returned to the caller. -/
def getPropensity (responseJson : JSVal) : Except String JSVal :=
  parsePropensityResponse_ responseJson

/-! ### Client-id caching (`getClientId_`) -/

/-- The mutable `clientId_` field of `PropensityServer` (`?string`,
initially `null`). -/
structure PSState where
  clientId_ : Option String
deriving Repr, DecidableEq

/-- JavaScript whitespace (`\s`), ASCII fragment. -/
def isJsWs (c : Char) : Bool :=
  c == ' ' || c == '\t' || c == '\n' || c == '\r'
    || c.toNat == 11 || c.toNat == 12

/-- Match the literal characters `p` at the front of `cs`. -/
def stripChars : List Char → List Char → Option (List Char)
  | [], cs => some cs
  | _ :: _, [] => none
  | p :: ps, c :: cs => if p == c then stripChars ps cs else none

/-- The body of the `__gads` cookie pattern after the `(^|;)` alternation:
`\s*__gads\s*=\s*([^;]+)`; returns the text of the capture group.  When the
cookie value is entirely whitespace, the greedy `\s*` backtracks by one
character so that `[^;]+` can match it. -/
def gadsBody (cs : List Char) : Option String :=
  let cs1 := cs.dropWhile isJsWs
  match stripChars "__gads".toList cs1 with
  | none => none
  | some cs2 =>
    let cs3 := cs2.dropWhile isJsWs
    match cs3 with
    | '=' :: cs4 =>
      let ws := cs4.takeWhile isJsWs
      let rest := (cs4.dropWhile isJsWs).takeWhile (· != ';')
      if !rest.isEmpty then some (String.mk rest)
      else
        match ws.getLast? with
        | some c => some (String.mk [c])
        | none => none
    | _ => none

/-- Scan the cookie for the `;`-anchored alternative of `(^|;)`, leftmost
first. -/
def gadsScanAux : List Char → Option String
  | [] => none
  | c :: rest =>
    if c == ';' then
      match gadsBody rest with
      | some s => some s
      | none => gadsScanAux rest
    else
      gadsScanAux rest

/-- The regex match
`cookie.match('(^|;)\\s*__gads\\s*=\\s*([^;]+)')` followed by `.pop()`:
the text of the last capture group of the leftmost match, or `none` when the
cookie does not contain a `__gads` entry. -/
def gadsMatch (cookie : String) : Option String :=
  match gadsBody cookie.toList with
  | some s => some s
  | none => gadsScanAux cookie.toList

/-- Hexadecimal digit (uppercase, as `encodeURIComponent` produces). -/
def hexDigit (n : Nat) : Char :=
  if n < 10 then Char.ofNat (48 + n) else Char.ofNat (55 + n)

/-- A character `encodeURIComponent` leaves unescaped:
`A-Z a-z 0-9 - _ . ! ~ * ' ( )`. -/
def isUriUnescaped (c : Char) : Bool :=
  c.isAlphanum || c == '-' || c == '_' || c == '.' || c == '!'
    || c == '~' || c == '*' || c.toNat == 39 || c == '(' || c == ')'

/-- `encodeURIComponent`: unescaped characters are kept, every other
character is replaced by the percent-encoding of its UTF-8 bytes. -/
def encodeURIComponent (s : String) : String :=
  String.join (s.toList.map fun c =>
    if isUriUnescaped c then String.mk [c]
    else String.join (((String.mk [c]).toUTF8.toList).map fun b =>
      String.mk ['%', hexDigit (b.toNat / 16), hexDigit (b.toNat % 16)]))

/-- `PropensityServer.getClientId_`: when the cached `clientId_` is falsy
(`null` or the empty string), re-derive it from the current cookie string by
matching the `__gads` cookie and percent-encoding the captured value (the
match failing leaves the cache `null`); otherwise return the cached value
unchanged.  Returns (value returned to the caller, state after the
call). -/
def getClientId_ (cookie : String) (st : PSState) : Option String × PSState :=
  let falsy := match st.clientId_ with
    | none => true
    | some s => s.isEmpty
  if falsy then
    let derived := (gadsMatch cookie).map encodeURIComponent
    (derived, ⟨derived⟩)
  else
    (st.clientId_, st)

/-! ## Lemmas about the dispatch loops -/

lemma runFilterers_indices_lt (ev : JSVal) :
    ∀ (fs : List Filterer) (k j : Nat), j ∈ (runFilterers ev k fs).1 → j < k + fs.length := by
  intro fs
  induction fs with
  | nil => intro k j hj; simp [runFilterers] at hj
  | cons f rest ih =>
    intro k j hj
    simp only [List.length_cons]
    cases h : f ev with
    | throws e =>
      simp only [runFilterers, h] at hj
      rcases List.mem_cons.mp hj with rfl | hj'
      · omega
      · have := ih (k + 1) j hj'
        omega
    | returns v =>
      by_cases hv : isNumVal v FilterResult.CANCEL_EVENT
      · simp [runFilterers, h, hv] at hj
        omega
      · simp [runFilterers, h, hv] at hj
        rcases hj with rfl | hj'
        · omega
        · have := ih (k + 1) j hj'
          omega

lemma runFilterers_append_cancelled (ev : JSVal) :
    ∀ (xs ys : List Filterer) (k : Nat), (runFilterers ev k xs).2.1 = true →
      runFilterers ev k (xs ++ ys) = runFilterers ev k xs := by
  intro xs
  induction xs with
  | nil => intro ys k h; simp [runFilterers] at h
  | cons f rest ih =>
    intro ys k h
    cases hf : f ev with
    | throws e =>
      simp only [runFilterers, hf] at h
      rw [List.cons_append]
      simp only [runFilterers, hf, ih ys (k + 1) h]
    | returns v =>
      by_cases hv : isNumVal v FilterResult.CANCEL_EVENT
      · rw [List.cons_append]
        simp [runFilterers, hf, hv]
      · simp only [runFilterers, hf] at h
        simp only [hv, if_false, Bool.false_eq_true] at h
        rw [List.cons_append]
        simp only [runFilterers, hf, ih ys (k + 1) h]

lemma runFilterers_append_not_cancelled (ev : JSVal) :
    ∀ (xs ys : List Filterer) (k : Nat), (runFilterers ev k xs).2.1 = false →
      runFilterers ev k (xs ++ ys)
        = ((runFilterers ev k xs).1 ++ (runFilterers ev (k + xs.length) ys).1,
           (runFilterers ev (k + xs.length) ys).2.1,
           (runFilterers ev k xs).2.2 + (runFilterers ev (k + xs.length) ys).2.2) := by
  intro xs
  induction xs with
  | nil => intro ys k _; simp [runFilterers]
  | cons f rest ih =>
    intro ys k h
    have hlen : k + (f :: rest).length = (k + 1) + rest.length := by
      simp only [List.length_cons]; omega
    cases hf : f ev with
    | throws e =>
      simp only [runFilterers, hf] at h
      rw [List.cons_append]
      simp only [runFilterers, hf, ih ys (k + 1) h, hlen]
      simp [Nat.add_assoc]
      try omega
    | returns v =>
      by_cases hv : isNumVal v FilterResult.CANCEL_EVENT
      · simp [runFilterers, hf, hv] at h
      · simp only [runFilterers, hf] at h
        simp only [hv, if_false, Bool.false_eq_true] at h
        rw [List.cons_append]
        simp only [runFilterers, hf, hv, ih ys (k + 1) h, hlen, if_false]
        simp [Nat.add_assoc]
        try omega

lemma runFilterers_cancelled_iff (ev : JSVal) :
    ∀ (fs : List Filterer) (k : Nat),
      (runFilterers ev k fs).2.1 = true
        ↔ ∃ f ∈ fs, ∃ v, f ev = CallOutcome.returns v
            ∧ isNumVal v FilterResult.CANCEL_EVENT = true := by
  intro fs
  induction fs with
  | nil => intro k; simp [runFilterers]
  | cons f rest ih =>
    intro k
    cases hf : f ev with
    | throws e =>
      rw [show (runFilterers ev k (f :: rest)).2.1 = (runFilterers ev (k + 1) rest).2.1 from by
        simp [runFilterers, hf]]
      rw [ih (k + 1)]
      constructor
      · rintro ⟨g, hg, v, hgv, hv⟩
        exact ⟨g, List.mem_cons_of_mem f hg, v, hgv, hv⟩
      · rintro ⟨g, hg, v, hgv, hv⟩
        rcases List.mem_cons.mp hg with rfl | hg'
        · rw [hf] at hgv; cases hgv
        · exact ⟨g, hg', v, hgv, hv⟩
    | returns v =>
      by_cases hv : isNumVal v FilterResult.CANCEL_EVENT
      · constructor
        · intro _
          exact ⟨f, List.mem_cons_self f rest, v, hf, hv⟩
        · intro _
          simp [runFilterers, hf, hv]
      · rw [show (runFilterers ev k (f :: rest)).2.1 = (runFilterers ev (k + 1) rest).2.1 from by
          simp [runFilterers, hf, hv]]
        rw [ih (k + 1)]
        constructor
        · rintro ⟨g, hg, w, hgw, hw⟩
          exact ⟨g, List.mem_cons_of_mem f hg, w, hgw, hw⟩
        · rintro ⟨g, hg, w, hgw, hw⟩
          rcases List.mem_cons.mp hg with rfl | hg'
          · rw [hf] at hgw
            cases hgw
            rw [hw] at hv
            cases hv rfl
          · exact ⟨g, hg', w, hgw, hw⟩

lemma runListeners_fst (ev params : JSVal) :
    ∀ (ls : List Listener) (k : Nat), (runListeners ev params k ls).1 = List.range' k ls.length := by
  intro ls
  induction ls with
  | nil => intro k; simp [runListeners, List.range']
  | cons l rest ih =>
    intro k
    cases h : l ev params <;>
      simp [runListeners, h, ih (k + 1), List.range']

lemma handleEvent_filterersRun (fs : List Filterer) (ls : List Listener) (ev params : JSVal) :
    (handleEvent_ fs ls ev params).filterersRun = (runFilterers ev 0 fs).1 := by
  simp only [handleEvent_]
  split <;> rfl

lemma handleEvent_cancelled (fs : List Filterer) (ls : List Listener) (ev params : JSVal) :
    (handleEvent_ fs ls ev params).cancelled = (runFilterers ev 0 fs).2.1 := by
  simp only [handleEvent_]
  split <;> simp_all

lemma handleEvent_listenersRun (fs : List Filterer) (ls : List Listener) (ev params : JSVal) :
    (handleEvent_ fs ls ev params).listenersRun
      = if (runFilterers ev 0 fs).2.1 then [] else List.range ls.length := by
  simp only [handleEvent_]
  split <;> simp_all [runListeners_fst, List.range_eq_range']

lemma handleEvent_faultsLogged (fs : List Filterer) (ls : List Listener) (ev params : JSVal) :
    (handleEvent_ fs ls ev params).faultsLogged
      = if (runFilterers ev 0 fs).2.1 then (runFilterers ev 0 fs).2.2
        else (runFilterers ev 0 fs).2.2 + (runListeners ev params 0 ls).2 := by
  simp only [handleEvent_]
  split <;> simp_all

lemma take_get_drop {α : Type} : ∀ (l : List α) (k : Nat) (hk : k < l.length),
    l = l.take k ++ l.get ⟨k, hk⟩ :: l.drop (k + 1) := by
  intro l
  induction l with
  | nil => intro k hk; cases hk
  | cons x rest ih =>
    intro k hk
    cases k with
    | zero => simp
    | succ m =>
      have hm : m < rest.length := Nat.lt_of_succ_lt_succ hk
      have := ih m hm
      simp only [List.take_succ_cons, List.get, List.drop_succ_cons, List.cons_append]
      exact congrArg (x :: ·) this

lemma validateEvent_ok_iff (ev : JSVal) :
    validateEvent ev = Except.ok ()
      ↔ (isObject ev = true
          ∧ isEnumValue analyticsEventValues (jsGet ev "eventType") = true
          ∧ isEnumValue eventOriginatorValues (jsGet ev "eventOriginator") = true
          ∧ (isObject (jsGet ev "additionalParameters") = true
              ∨ isLooseNull (jsGet ev "additionalParameters") = true)
          ∧ (isBoolean (jsGet ev "isFromUserAction") = true
              ∨ isLooseNull (jsGet ev "isFromUserAction") = true)) := by
  unfold validateEvent
  split_ifs with h1 h2 h3 h4 h5 <;>
    simp_all [Bool.not_eq_true', Bool.not_eq_false', Bool.and_eq_true,
      Bool.not_eq_true, Bool.not_eq_false]
  constructor
  · rcases Bool.eq_false_or_eq_true (isObject (jsGet ev "additionalParameters")) with hb | hb
    · exact Or.inl hb
    · exact Or.inr (h4 hb)
  · rcases Bool.eq_false_or_eq_true (isLooseNull (jsGet ev "isFromUserAction")) with hb | hb
    · exact Or.inr hb
    · exact Or.inl (h5 hb)

lemma runFilterers_bound_of_cancel (ev : JSVal) (xs ys : List Filterer) (f : Filterer)
    (v : JSVal) (hf : f ev = CallOutcome.returns v)
    (hv : isNumVal v FilterResult.CANCEL_EVENT = true) :
    (∀ j ∈ (runFilterers ev 0 (xs ++ f :: ys)).1, j ≤ xs.length)
      ∧ (runFilterers ev 0 (xs ++ f :: ys)).2.1 = true := by
  by_cases hpc : (runFilterers ev 0 xs).2.1 = true
  · rw [runFilterers_append_cancelled ev xs (f :: ys) 0 hpc]
    refine ⟨?_, hpc⟩
    intro j hj
    have := runFilterers_indices_lt ev xs 0 j hj
    omega
  · have hpc' : (runFilterers ev 0 xs).2.1 = false := by
      revert hpc; cases (runFilterers ev 0 xs).2.1 <;> simp
    rw [runFilterers_append_not_cancelled ev xs (f :: ys) 0 hpc']
    have hstep : runFilterers ev (0 + xs.length) (f :: ys) = ([0 + xs.length], true, 0) := by
      simp [runFilterers, hf, hv]
    refine ⟨?_, by rw [hstep]⟩
    intro j hj
    simp only [hstep] at hj
    rcases List.mem_append.mp hj with hj' | hj'
    · have := runFilterers_indices_lt ev xs 0 j hj'
      omega
    · rcases List.mem_singleton.mp hj' with rfl
      omega

/-- **C1.**  `logEvent` rejects exactly the malformed events, synchronously:
if the event is not a plain object, its `eventType` is not an
`AnalyticsEvent` member, its `eventOriginator` is not an `EventOriginator`
member, its `additionalParameters` is present but not a mapping, or its
`isFromUserAction` is present but not a boolean, then `logEvent` raises
(yields an `error` result, so no dispatch is ever produced and no filterer
or listener is invoked for that event); if the event satisfies all five
constraints, `logEvent` does not raise and hands the event to the dispatch
`handleEvent_`. -/
theorem C1_logEvent_validation (fs : List Filterer) (ls : List Listener) (ev params : JSVal) :
    ((isObject ev = false
        ∨ isEnumValue analyticsEventValues (jsGet ev "eventType") = false
        ∨ isEnumValue eventOriginatorValues (jsGet ev "eventOriginator") = false
        ∨ (isLooseNull (jsGet ev "additionalParameters") = false
            ∧ isObject (jsGet ev "additionalParameters") = false)
        ∨ (isLooseNull (jsGet ev "isFromUserAction") = false
            ∧ isBoolean (jsGet ev "isFromUserAction") = false))
      → (logEvent fs ls ev params).toOption = none)
    ∧ ((isObject ev = true
        ∧ isEnumValue analyticsEventValues (jsGet ev "eventType") = true
        ∧ isEnumValue eventOriginatorValues (jsGet ev "eventOriginator") = true
        ∧ (isObject (jsGet ev "additionalParameters") = true
            ∨ isLooseNull (jsGet ev "additionalParameters") = true)
        ∧ (isBoolean (jsGet ev "isFromUserAction") = true
            ∨ isLooseNull (jsGet ev "isFromUserAction") = true))
      → logEvent fs ls ev params = Except.ok (handleEvent_ fs ls ev params)) := by
  constructor
  · intro h
    have hne : validateEvent ev ≠ Except.ok () := by
      intro hok
      rw [validateEvent_ok_iff] at hok
      obtain ⟨p1, p2, p3, p4, p5⟩ := hok
      rcases h with h1 | h2 | h3 | ⟨h4a, h4b⟩ | ⟨h5a, h5b⟩ <;> simp_all
    cases hv : validateEvent ev with
    | error e => simp [logEvent, hv, Except.toOption]
    | ok u => cases u; exact absurd hv hne
  · intro h
    have hok : validateEvent ev = Except.ok () := (validateEvent_ok_iff ev).mpr h
    simp [logEvent, hok]

/-- Witness for C1: a well-formed event is accepted and dispatched, a
non-object is rejected. -/
theorem C1_witness :
    (logEvent [] [] (JSVal.obj [("eventType", JSVal.num 0), ("eventOriginator", JSVal.num 1)])
        JSVal.undefined
      = Except.ok (handleEvent_ [] []
          (JSVal.obj [("eventType", JSVal.num 0), ("eventOriginator", JSVal.num 1)])
          JSVal.undefined))
    ∧ (logEvent [] [] (JSVal.num 0) JSVal.undefined).toOption = none :=
  ⟨(C1_logEvent_validation [] []
      (JSVal.obj [("eventType", JSVal.num 0), ("eventOriginator", JSVal.num 1)])
      JSVal.undefined).2 ⟨rfl, rfl, rfl, Or.inr rfl, Or.inr rfl⟩,
   (C1_logEvent_validation [] [] (JSVal.num 0) JSVal.undefined).1 (Or.inl rfl)⟩

/-- **C2.**  If the filterer at registration index `k` returns
`FilterResult.CANCEL_EVENT` for the event, dispatch stops at it: every
filterer that was invoked has index at most `k`, the dispatch is cancelled,
and no listener receives the event. -/
theorem C2_cancel_stops_dispatch (fs : List Filterer) (ls : List Listener)
    (ev params : JSVal) (k : Nat) (v : JSVal) (hk : k < fs.length)
    (hret : fs.get ⟨k, hk⟩ ev = CallOutcome.returns v)
    (hcancel : isNumVal v FilterResult.CANCEL_EVENT = true) :
    (∀ j ∈ (handleEvent_ fs ls ev params).filterersRun, j ≤ k)
    ∧ (handleEvent_ fs ls ev params).cancelled = true
    ∧ (handleEvent_ fs ls ev params).listenersRun = [] := by
  have hdecomp : fs = fs.take k ++ fs.get ⟨k, hk⟩ :: fs.drop (k + 1) := take_get_drop fs k hk
  have hlen : (fs.take k).length = k := by
    simp only [List.length_take]
    omega
  have h2 := runFilterers_bound_of_cancel ev (fs.take k) (fs.drop (k + 1))
    (fs.get ⟨k, hk⟩) v hret hcancel
  rw [← hdecomp, hlen] at h2
  refine ⟨?_, ?_, ?_⟩
  · intro j hj
    rw [handleEvent_filterersRun] at hj
    exact h2.1 j hj
  · rw [handleEvent_cancelled]
    exact h2.2
  · rw [handleEvent_listenersRun, h2.2]
    simp

/-- Witness for C2: a single cancelling filterer keeps the lone listener
from running. -/
theorem C2_witness :
    (handleEvent_ [fun _ => CallOutcome.returns (JSVal.num 1)]
        [fun _ _ => CallOutcome.returns JSVal.undefined]
        (JSVal.num 0) JSVal.undefined).cancelled = true
    ∧ (handleEvent_ [fun _ => CallOutcome.returns (JSVal.num 1)]
        [fun _ _ => CallOutcome.returns JSVal.undefined]
        (JSVal.num 0) JSVal.undefined).listenersRun = [] :=
  ⟨(C2_cancel_stops_dispatch [fun _ => CallOutcome.returns (JSVal.num 1)]
      [fun _ _ => CallOutcome.returns JSVal.undefined]
      (JSVal.num 0) JSVal.undefined 0 (JSVal.num 1) (by decide) rfl rfl).2.1,
   (C2_cancel_stops_dispatch [fun _ => CallOutcome.returns (JSVal.num 1)]
      [fun _ _ => CallOutcome.returns JSVal.undefined]
      (JSVal.num 0) JSVal.undefined 0 (JSVal.num 1) (by decide) rfl rfl).2.2⟩

/-- **C3.**  Consumer faults are isolated: replacing a filterer that throws
on the event by one returning `PROCEED_EVENT` changes neither which
filterers run, nor the cancellation verdict, nor which listeners run — the
pipeline continues as if the throwing filterer had returned PROCEED — and
when the throwing filterer is actually reached, exactly one extra fault is
recorded to the diagnostic sink.  When no filterer cancels, every
registered listener is invoked regardless of any listener throwing, and the
only errors `logEvent` ever surfaces to its caller are validation errors
(consumer faults never propagate). -/
theorem C3_consumer_fault_isolation (fs₁ fs₂ : List Filterer) (ls : List Listener)
    (ev params : JSVal) (fT fP : Filterer) (eT : String)
    (hT : fT ev = CallOutcome.throws eT)
    (hP : fP ev = CallOutcome.returns (JSVal.num FilterResult.PROCEED_EVENT)) :
    ((handleEvent_ (fs₁ ++ fT :: fs₂) ls ev params).cancelled
        = (handleEvent_ (fs₁ ++ fP :: fs₂) ls ev params).cancelled)
    ∧ ((handleEvent_ (fs₁ ++ fT :: fs₂) ls ev params).filterersRun
        = (handleEvent_ (fs₁ ++ fP :: fs₂) ls ev params).filterersRun)
    ∧ ((handleEvent_ (fs₁ ++ fT :: fs₂) ls ev params).listenersRun
        = (handleEvent_ (fs₁ ++ fP :: fs₂) ls ev params).listenersRun)
    ∧ (fs₁.length ∈ (handleEvent_ (fs₁ ++ fT :: fs₂) ls ev params).filterersRun →
        (handleEvent_ (fs₁ ++ fT :: fs₂) ls ev params).faultsLogged
          = (handleEvent_ (fs₁ ++ fP :: fs₂) ls ev params).faultsLogged + 1)
    ∧ ((handleEvent_ (fs₁ ++ fT :: fs₂) ls ev params).cancelled = false →
        (handleEvent_ (fs₁ ++ fT :: fs₂) ls ev params).listenersRun = List.range ls.length)
    ∧ (∀ e, logEvent (fs₁ ++ fT :: fs₂) ls ev params = Except.error e →
        validateEvent ev = Except.error e) := by
  have hlast : ∀ e, logEvent (fs₁ ++ fT :: fs₂) ls ev params = Except.error e →
      validateEvent ev = Except.error e := by
    intro e he
    cases hv : validateEvent ev with
    | error e' =>
      simp only [logEvent, hv] at he
      simpa using he
    | ok u =>
      cases u
      simp [logEvent, hv] at he
  by_cases hpc : (runFilterers ev 0 fs₁).2.1 = true
  · have eqT := runFilterers_append_cancelled ev fs₁ (fT :: fs₂) 0 hpc
    have eqP := runFilterers_append_cancelled ev fs₁ (fP :: fs₂) 0 hpc
    refine ⟨?_, ?_, ?_, ?_, ?_, hlast⟩
    · rw [handleEvent_cancelled, handleEvent_cancelled, eqT, eqP]
    · rw [handleEvent_filterersRun, handleEvent_filterersRun, eqT, eqP]
    · rw [handleEvent_listenersRun, handleEvent_listenersRun, eqT, eqP]
    · intro hmem
      rw [handleEvent_filterersRun, eqT] at hmem
      have := runFilterers_indices_lt ev fs₁ 0 fs₁.length hmem
      omega
    · intro hfalse
      rw [handleEvent_cancelled, eqT] at hfalse
      rw [hpc] at hfalse
      cases hfalse
  · have hpc' : (runFilterers ev 0 fs₁).2.1 = false := by
      revert hpc; cases (runFilterers ev 0 fs₁).2.1 <;> simp
    have eqT := runFilterers_append_not_cancelled ev fs₁ (fT :: fs₂) 0 hpc'
    have eqP := runFilterers_append_not_cancelled ev fs₁ (fP :: fs₂) 0 hpc'
    have hsT : runFilterers ev (0 + fs₁.length) (fT :: fs₂)
        = (fs₁.length :: (runFilterers ev (fs₁.length + 1) fs₂).1,
           (runFilterers ev (fs₁.length + 1) fs₂).2.1,
           (runFilterers ev (fs₁.length + 1) fs₂).2.2 + 1) := by
      simp [runFilterers, hT]
    have hsP : runFilterers ev (0 + fs₁.length) (fP :: fs₂)
        = (fs₁.length :: (runFilterers ev (fs₁.length + 1) fs₂).1,
           (runFilterers ev (fs₁.length + 1) fs₂).2.1,
           (runFilterers ev (fs₁.length + 1) fs₂).2.2) := by
      simp [runFilterers, hP, isNumVal, FilterResult.PROCEED_EVENT, FilterResult.CANCEL_EVENT]
    rw [hsT] at eqT
    rw [hsP] at eqP
    refine ⟨?_, ?_, ?_, ?_, ?_, hlast⟩
    · rw [handleEvent_cancelled, handleEvent_cancelled, eqT, eqP]
    · rw [handleEvent_filterersRun, handleEvent_filterersRun, eqT, eqP]
    · rw [handleEvent_listenersRun, handleEvent_listenersRun, eqT, eqP]
    · intro _
      rw [handleEvent_faultsLogged, handleEvent_faultsLogged, eqT, eqP]
      split <;> (try simp) <;> omega
    · intro hfalse
      rw [handleEvent_listenersRun, eqT]
      rw [handleEvent_cancelled, eqT] at hfalse
      simp only at hfalse ⊢
      rw [hfalse]
      simp

/-- Witness for C3: with one throwing filterer and one throwing listener,
the listener still runs, one fault is recorded for the filterer, and the
verdict matches the PROCEED variant. -/
theorem C3_witness :
    (handleEvent_ ([] ++ (fun _ => CallOutcome.throws "boom") :: [])
        [fun _ _ => CallOutcome.throws "listener-fault"]
        (JSVal.num 0) JSVal.undefined).listenersRun = List.range 1
    ∧ (handleEvent_ ([] ++ (fun _ => CallOutcome.throws "boom") :: [])
        [fun _ _ => CallOutcome.throws "listener-fault"]
        (JSVal.num 0) JSVal.undefined).faultsLogged
      = (handleEvent_ ([] ++ (fun _ => CallOutcome.returns (JSVal.num FilterResult.PROCEED_EVENT)) :: [])
          [fun _ _ => CallOutcome.throws "listener-fault"]
          (JSVal.num 0) JSVal.undefined).faultsLogged + 1 :=
  ⟨(C3_consumer_fault_isolation [] [] [fun _ _ => CallOutcome.throws "listener-fault"]
      (JSVal.num 0) JSVal.undefined (fun _ => CallOutcome.throws "boom")
      (fun _ => CallOutcome.returns (JSVal.num FilterResult.PROCEED_EVENT)) "boom"
      rfl rfl).2.2.2.2.1 rfl,
   (C3_consumer_fault_isolation [] [] [fun _ _ => CallOutcome.throws "listener-fault"]
      (JSVal.num 0) JSVal.undefined (fun _ => CallOutcome.throws "boom")
      (fun _ => CallOutcome.returns (JSVal.num FilterResult.PROCEED_EVENT)) "boom"
      rfl rfl).2.2.2.1 (by simp [handleEvent_, runFilterers])⟩

/-- **C10.**  Dispatch of an accepted event is cancelled exactly when some
registered filterer returns the value `FilterResult.CANCEL_EVENT` for it
(strict equality against the enum value); any other returned value — a
throw, `undefined`, `PROCEED_EVENT`, or a value outside the enumeration —
is non-cancelling, and when nothing cancels, every listener runs. -/
theorem C10_cancel_iff_cancel_event (fs : List Filterer) (ls : List Listener)
    (ev params : JSVal) :
    ((handleEvent_ fs ls ev params).cancelled = true
      ↔ ∃ f ∈ fs, ∃ v, f ev = CallOutcome.returns v
          ∧ isNumVal v FilterResult.CANCEL_EVENT = true)
    ∧ ((handleEvent_ fs ls ev params).cancelled = false
      → (handleEvent_ fs ls ev params).listenersRun = List.range ls.length) := by
  constructor
  · rw [handleEvent_cancelled]
    exact runFilterers_cancelled_iff ev fs 0
  · intro h
    rw [handleEvent_cancelled] at h
    rw [handleEvent_listenersRun, h]
    simp

/-- Witness for C10: a filterer returning a value outside the enumeration
(`undefined`) does not cancel, so the lone listener runs. -/
theorem C10_witness :
    (handleEvent_ [fun _ => CallOutcome.returns JSVal.undefined]
        [fun _ _ => CallOutcome.returns JSVal.undefined]
        (JSVal.num 0) JSVal.undefined).listenersRun = List.range 1 :=
  (C10_cancel_iff_cancel_event [fun _ => CallOutcome.returns JSVal.undefined]
      [fun _ _ => CallOutcome.returns JSVal.undefined]
      (JSVal.num 0) JSVal.undefined).2 rfl

/-! ## Lemmas about the propensity server -/

lemma jsGetE_ok (v : JSVal) (k : String) (h : nonNullish v = true) :
    jsGetE v k = Except.ok (jsGet v k) := by
  cases v <;> simp_all [jsGetE, nonNullish]

lemma jsTruthy_nonNullish (v : JSVal) (h : jsTruthy v = true) : nonNullish v = true := by
  cases v <;> simp_all [jsTruthy, nonNullish]

/-- The score-detail shape described by the spec for one entry of the
`scores` array: a truthy `score` field yields
`{product, score: {value, bucketed}}` with `bucketed` true exactly when
`score_type == 2`, any other entry yields `{product, error: error_message}`. -/
def detailShape (e : JSVal) : JSVal :=
  if jsTruthy (jsGet e "score") then
    .obj [("product", jsGet e "product"),
          ("score", .obj [("value", jsGet e "score"),
                          ("bucketed", .bool (jsLooseEqNum (jsGet e "score_type") 2))])]
  else
    .obj [("product", jsGet e "product"), ("error", jsGet e "error_message")]

/-- The error result `parsePropensityResponse_` substitutes on failure. -/
def errorScore (msg : JSVal) : JSVal :=
  .obj [("header", .obj [("ok", .bool false)]), ("body", .obj [("error", msg)])]

/-- The success result of `parsePropensityResponse_`. -/
def okScore (details : List JSVal) : JSVal :=
  .obj [("header", .obj [("ok", .bool true)]), ("body", .obj [("scores", .arr details)])]

lemma mkScoreDetail_ok (e : JSVal) (h : nonNullish e = true) :
    mkScoreDetail e = Except.ok (detailShape e) := by
  unfold mkScoreDetail detailShape
  rw [jsGetE_ok e "score" h]
  by_cases hs : jsTruthy (jsGet e "score") <;>
    simp [hs, jsGetE_ok e "score_type" h, jsGetE_ok e "product" h,
      jsGetE_ok e "error_message" h, Bind.bind, Except.bind, pure, Except.pure]

lemma getD_append_len (pre : List JSVal) (x : JSVal) (xs : List JSVal) (d : JSVal) :
    (pre ++ x :: xs).getD pre.length d = x := by
  induction pre with
  | nil => simp
  | cons p ps ih => simpa using ih

lemma buildScoreDetails_arr :
    ∀ (entries pre : List JSVal), (∀ e ∈ entries, nonNullish e = true) →
      buildScoreDetails (.arr (pre ++ entries)) pre.length entries.length
        = Except.ok (entries.map detailShape) := by
  intro entries
  induction entries with
  | nil => intro pre _; simp [buildScoreDetails]
  | cons x xs ih =>
    intro pre h
    have hx : nonNullish x = true := h x (List.mem_cons_self x xs)
    have hxs : ∀ e ∈ xs, nonNullish e = true := fun e he => h e (List.mem_cons_of_mem x he)
    have hidx : jsIndex (JSVal.arr (pre ++ x :: xs)) pre.length = x := by
      show (pre ++ x :: xs).getD pre.length JSVal.undefined = x
      exact getD_append_len pre x xs JSVal.undefined
    have hstep := ih (pre ++ [x]) hxs
    have hre : (pre ++ [x]) ++ xs = pre ++ x :: xs := by simp
    have hlen : (pre ++ [x]).length = pre.length + 1 := by simp
    rw [hre, hlen] at hstep
    show buildScoreDetails (JSVal.arr (pre ++ x :: xs)) pre.length (xs.length + 1) = _
    simp [buildScoreDetails, hidx, mkScoreDetail_ok x hx, hstep,
      Bind.bind, Except.bind, pure, Except.pure]

lemma parse_no_header (resp : JSVal) (hnn : nonNullish resp = true)
    (h : jsTruthy (jsGet resp "header") = false) :
    parsePropensityResponse_ resp = Except.ok (errorScore (JSVal.str "No valid response")) := by
  unfold parsePropensityResponse_ errorScore
  rw [jsGetE_ok resp "header" hnn]
  simp [h, Bind.bind, Except.bind, pure, Except.pure]

lemma parse_header_not_ok (resp : JSVal) (hnn : nonNullish resp = true)
    (h1 : jsTruthy (jsGet resp "header") = true)
    (h2 : jsTruthy (jsGet (jsGet resp "header") "ok") = false) :
    parsePropensityResponse_ resp = Except.ok (errorScore (jsGet resp "error")) := by
  unfold parsePropensityResponse_ errorScore
  rw [jsGetE_ok resp "header" hnn]
  simp [h1, h2, jsGetE_ok (jsGet resp "header") "ok" (jsTruthy_nonNullish _ h1),
    Bind.bind, Except.bind, pure, Except.pure]

lemma parse_header_ok (resp : JSVal) (entries : List JSVal)
    (hnn : nonNullish resp = true)
    (h1 : jsTruthy (jsGet resp "header") = true)
    (h2 : jsTruthy (jsGet (jsGet resp "header") "ok") = true)
    (hsc : jsGet resp "scores" = JSVal.arr entries)
    (hall : ∀ e ∈ entries, nonNullish e = true) :
    parsePropensityResponse_ resp = Except.ok (okScore (entries.map detailShape)) := by
  unfold parsePropensityResponse_ okScore
  rw [jsGetE_ok resp "header" hnn]
  have hbuild := buildScoreDetails_arr entries [] hall
  simp only [List.nil_append, List.length_nil] at hbuild
  simp [h1, h2, jsGetE_ok (jsGet resp "header") "ok" (jsTruthy_nonNullish _ h1),
    jsGetE_ok resp "scores" hnn, hsc, jsLengthForLoop, hbuild,
    Bind.bind, Except.bind, pure, Except.pure]

/-- **C4 (amended).**  `parsePropensityResponse_` (and hence the score query
`getPropensity`) returns a well-typed result without raising for every
response whose `header` is falsy, whose `header.ok` is falsy, or whose
`header.ok` is truthy and whose `scores` value is an array of readable
entries; the unamended claim fails because a truthy `header.ok` with a
missing `scores` value makes the loop bound read `undefined.length`, which
throws and rejects the caller's promise (see the counterexample). -/
theorem C4_parse_no_raise_amended (resp : JSVal) (hnn : nonNullish resp = true)
    (h : jsTruthy (jsGet resp "header") = false
       ∨ (jsTruthy (jsGet resp "header") = true
           ∧ jsTruthy (jsGet (jsGet resp "header") "ok") = false)
       ∨ (jsTruthy (jsGet resp "header") = true
           ∧ jsTruthy (jsGet (jsGet resp "header") "ok") = true
           ∧ ∃ entries : List JSVal, jsGet resp "scores" = JSVal.arr entries
               ∧ ∀ e ∈ entries, nonNullish e = true)) :
    (getPropensity resp).isOk = true := by
  rcases h with h1 | ⟨h1, h2⟩ | ⟨h1, h2, entries, hsc, hall⟩
  · rw [getPropensity, parse_no_header resp hnn h1]
    rfl
  · rw [getPropensity, parse_header_not_ok resp hnn h1 h2]
    rfl
  · rw [getPropensity, parse_header_ok resp entries hnn h1 h2 hsc hall]
    rfl

/-- Counterexample for C4 as stated: a response whose header has `ok=true`
but which lacks a `scores` array makes `parsePropensityResponse_` throw a
`TypeError` instead of returning a well-typed result, so `getPropensity`
rejects. -/
theorem C4_counterexample :
    getPropensity (JSVal.obj [("header", JSVal.obj [("ok", JSVal.bool true)])])
      = Except.error "TypeError: Cannot read properties of undefined (reading length)" := rfl

/-- Witness for C4 (amended): the empty response object parses without
raising. -/
theorem C4_witness : (getPropensity (JSVal.obj [])).isOk = true :=
  C4_parse_no_raise_amended (JSVal.obj []) rfl (Or.inl rfl)

/-- **C5.**  The case analysis of `parsePropensityResponse_`: a falsy
`header` yields `{header:{ok:false}, body:{error:'No valid response'}}`; a
truthy `header` with falsy `ok` yields
`{header:{ok:false}, body:{error: response.error}}`; a truthy `ok` with a
`scores` array yields `{header:{ok:true}, body:{scores: [...]}}` where the
output list maps the input entries in order (hence has the same length),
each entry with a truthy `score` becoming
`{product, score:{value, bucketed}}` with `bucketed` true exactly when
`score_type == 2`, and every other entry becoming
`{product, error: error_message}` (the `detailShape` of the entry). -/
theorem C5_parse_case_analysis (resp : JSVal) (hnn : nonNullish resp = true) :
    (jsTruthy (jsGet resp "header") = false →
       parsePropensityResponse_ resp = Except.ok (errorScore (JSVal.str "No valid response")))
    ∧ (jsTruthy (jsGet resp "header") = true →
       jsTruthy (jsGet (jsGet resp "header") "ok") = false →
       parsePropensityResponse_ resp = Except.ok (errorScore (jsGet resp "error")))
    ∧ (∀ entries : List JSVal,
       jsTruthy (jsGet resp "header") = true →
       jsTruthy (jsGet (jsGet resp "header") "ok") = true →
       jsGet resp "scores" = JSVal.arr entries →
       (∀ e ∈ entries, nonNullish e = true) →
       parsePropensityResponse_ resp = Except.ok (okScore (entries.map detailShape))
         ∧ (entries.map detailShape).length = entries.length) :=
  ⟨fun h1 => parse_no_header resp hnn h1,
   fun h1 h2 => parse_header_not_ok resp hnn h1 h2,
   fun entries h1 h2 hsc hall =>
     ⟨parse_header_ok resp entries hnn h1 h2 hsc hall, by simp⟩⟩

/-- Witness for C5: the spec's own example — two score entries, the first a
bucketed value, the second an error — parses to the expected result in
order. -/
theorem C5_witness :
    parsePropensityResponse_
        (JSVal.obj
          [("header", JSVal.obj [("ok", JSVal.bool true)]),
           ("scores", JSVal.arr
             [JSVal.obj [("product", JSVal.str "a"), ("score", JSVal.num 5),
                         ("score_type", JSVal.num 2)],
              JSVal.obj [("product", JSVal.str "b"),
                         ("error_message", JSVal.str "x")]])])
      = Except.ok (okScore
          [JSVal.obj [("product", JSVal.str "a"),
                      ("score", JSVal.obj [("value", JSVal.num 5),
                                           ("bucketed", JSVal.bool true)])],
           JSVal.obj [("product", JSVal.str "b"), ("error", JSVal.str "x")]]) :=
  ((C5_parse_case_analysis
      (JSVal.obj
        [("header", JSVal.obj [("ok", JSVal.bool true)]),
         ("scores", JSVal.arr
           [JSVal.obj [("product", JSVal.str "a"), ("score", JSVal.num 5),
                       ("score_type", JSVal.num 2)],
            JSVal.obj [("product", JSVal.str "b"),
                       ("error_message", JSVal.str "x")]])]) rfl).2.2
    [JSVal.obj [("product", JSVal.str "a"), ("score", JSVal.num 5),
                ("score_type", JSVal.num 2)],
     JSVal.obj [("product", JSVal.str "b"), ("error_message", JSVal.str "x")]]
    rfl rfl rfl (by intro e he; fin_cases he <;> rfl)).1

/-- **C6.**  Originator gating in `handleClientEvent_`: a
`SHOWCASE_CLIENT` event issues no outbound request regardless of the
configuration flag; with the `enablePropensity` flag falsy, any event whose
originator is not `PROPENSITY_CLIENT` issues no outbound request; and a
`PROPENSITY_CLIENT` event is processed identically for every value of the
flag (the opt-in gate is bypassed). -/
theorem C6_originator_gating (flag ev : JSVal) :
    (jsGetE ev "eventOriginator" = Except.ok (JSVal.num EventOriginator.SHOWCASE_CLIENT) →
       handleClientEvent_ flag ev = Except.ok ([], jsGet ev "additionalParameters"))
    ∧ (∀ orig, jsGetE ev "eventOriginator" = Except.ok orig →
       jsTruthy flag = false →
       isNumVal orig EventOriginator.PROPENSITY_CLIENT = false →
       handleClientEvent_ flag ev = Except.ok ([], jsGet ev "additionalParameters"))
    ∧ (jsGetE ev "eventOriginator" = Except.ok (JSVal.num EventOriginator.PROPENSITY_CLIENT) →
       ∀ flag2, handleClientEvent_ flag ev = handleClientEvent_ flag2 ev) := by
  refine ⟨?_, ?_, ?_⟩
  · intro h
    simp [handleClientEvent_, h, Bind.bind, Except.bind, pure, Except.pure,
      isNumVal, EventOriginator.SHOWCASE_CLIENT]
  · intro orig h hflag hprop
    by_cases hshow : isNumVal orig EventOriginator.SHOWCASE_CLIENT = true
    · simp [handleClientEvent_, h, hshow, Bind.bind, Except.bind, pure, Except.pure]
    · have hshow' : isNumVal orig EventOriginator.SHOWCASE_CLIENT = false := by
        revert hshow; cases isNumVal orig EventOriginator.SHOWCASE_CLIENT <;> simp
      simp [handleClientEvent_, h, hshow', hflag, hprop,
        Bind.bind, Except.bind, pure, Except.pure]
  · intro h flag2
    simp [handleClientEvent_, h, Bind.bind, Except.bind, pure, Except.pure,
      isNumVal, EventOriginator.SHOWCASE_CLIENT, EventOriginator.PROPENSITY_CLIENT]

/-- Witness for C6: a showcase event is dropped, a non-propensity event is
dropped under a falsy flag, and a propensity event is flag-independent. -/
theorem C6_witness :
    handleClientEvent_ (JSVal.bool true)
        (JSVal.obj [("eventOriginator", JSVal.num 6)])
      = Except.ok ([], JSVal.undefined)
    ∧ handleClientEvent_ (JSVal.bool false)
        (JSVal.obj [("eventOriginator", JSVal.num 1)])
      = Except.ok ([], JSVal.undefined)
    ∧ handleClientEvent_ (JSVal.bool false)
        (JSVal.obj [("eventOriginator", JSVal.num 3), ("eventType", JSVal.num 0)])
      = handleClientEvent_ (JSVal.bool true)
        (JSVal.obj [("eventOriginator", JSVal.num 3), ("eventType", JSVal.num 0)]) :=
  ⟨(C6_originator_gating (JSVal.bool true)
      (JSVal.obj [("eventOriginator", JSVal.num 6)])).1 rfl,
   (C6_originator_gating (JSVal.bool false)
      (JSVal.obj [("eventOriginator", JSVal.num 1)])).2.1 (JSVal.num 1) rfl rfl rfl,
   (C6_originator_gating (JSVal.bool false)
      (JSVal.obj [("eventOriginator", JSVal.num 3), ("eventType", JSVal.num 0)])).2.2
     rfl (JSVal.bool true)⟩

/-- **C7.**  A surviving `EVENT_SUBSCRIPTION_STATE` event issues exactly one
subscription-state request carrying the `state` and `productsOrSkus` fields
of its `additionalParameters`, and zero generic event requests. -/
theorem C7_subscription_state_report (flag ev orig apv : JSVal)
    (hO : jsGetE ev "eventOriginator" = Except.ok orig)
    (hShow : isNumVal orig EventOriginator.SHOWCASE_CLIENT = false)
    (hGate : jsTruthy flag = true ∨ isNumVal orig EventOriginator.PROPENSITY_CLIENT = true)
    (hType : jsGetE ev "eventType"
       = Except.ok (JSVal.num AnalyticsEvent.EVENT_SUBSCRIPTION_STATE))
    (hAp : jsGetE ev "additionalParameters" = Except.ok apv)
    (hnn : nonNullish apv = true) :
    handleClientEvent_ flag ev
      = Except.ok ([Request.subscriptionState (jsGet apv "state") (jsGet apv "productsOrSkus")],
                   jsGet ev "additionalParameters") := by
  have hESS : isNumVal (JSVal.num AnalyticsEvent.EVENT_SUBSCRIPTION_STATE)
      AnalyticsEvent.EVENT_SUBSCRIPTION_STATE = true := rfl
  rcases hGate with hflag | hprop
  · simp [handleClientEvent_, hO, hShow, hflag, hType, hAp, hESS,
      jsGetE_ok apv "state" hnn, jsGetE_ok apv "productsOrSkus" hnn,
      Bind.bind, Except.bind, pure, Except.pure]
  · simp [handleClientEvent_, hO, hShow, hprop, hType, hAp, hESS,
      jsGetE_ok apv "state" hnn, jsGetE_ok apv "productsOrSkus" hnn,
      Bind.bind, Except.bind, pure, Except.pure]

/-- Witness for C7: a subscription-state event with
`{state:'s', productsOrSkus:'p'}` produces exactly the one report. -/
theorem C7_witness :
    handleClientEvent_ (JSVal.bool true)
        (JSVal.obj [("eventOriginator", JSVal.num 1), ("eventType", JSVal.num 2),
                    ("additionalParameters",
                      JSVal.obj [("state", JSVal.str "s"), ("productsOrSkus", JSVal.str "p")])])
      = Except.ok ([Request.subscriptionState (JSVal.str "s") (JSVal.str "p")],
                   JSVal.obj [("state", JSVal.str "s"), ("productsOrSkus", JSVal.str "p")]) :=
  C7_subscription_state_report (JSVal.bool true)
    (JSVal.obj [("eventOriginator", JSVal.num 1), ("eventType", JSVal.num 2),
                ("additionalParameters",
                  JSVal.obj [("state", JSVal.str "s"), ("productsOrSkus", JSVal.str "p")])])
    (JSVal.num 1)
    (JSVal.obj [("state", JSVal.str "s"), ("productsOrSkus", JSVal.str "p")])
    rfl rfl (Or.inl rfl) rfl rfl rfl

/-- **C8 (amended).**  Parameter shaping before generic forwarding: an
`EventParams` instance is stripped to `undefined` before serialization, as
the claim states; but when `additionalParameters` is a plain-object mapping
and `isFromUserAction` is a boolean, `is_active` is written into the
caller's own mapping in place — no shallow copy is made, so after the
forwarding step `event.additionalParameters` contains the injected
`is_active` field.  A fresh mapping is created only when the (possibly
stripped) parameters are not a plain object, in which case the caller's
slot is untouched. -/
theorem C8_param_shaping_amended (fsE fields : List (String × JSVal))
    (ifua : JSVal) (b : Bool) (ap : JSVal) :
    (forwardedParams (JSVal.eventParams fsE) ifua
       = (if isBoolean ifua then JSVal.obj [("is_active", ifua)] else JSVal.undefined,
          JSVal.eventParams fsE))
    ∧ (forwardedParams (JSVal.obj fields) (JSVal.bool b)
       = (JSVal.obj (jsSetField fields "is_active" (JSVal.bool b)),
          JSVal.obj (jsSetField fields "is_active" (JSVal.bool b))))
    ∧ (isObject ap = false →
       forwardedParams ap (JSVal.bool b)
         = (JSVal.obj [("is_active", JSVal.bool b)], ap)) := by
  refine ⟨?_, ?_, ?_⟩
  · by_cases hb : isBoolean ifua <;> simp [forwardedParams, hb, isObject]
  · simp [forwardedParams, isBoolean, isObject, jsSetProp]
  · intro hap
    cases ap <;> simp_all [forwardedParams, isBoolean, isObject]

/-- Witness for C8 (amended): nullish parameters with a boolean
`isFromUserAction` get a fresh `{is_active}` mapping, leaving the caller's
slot untouched. -/
theorem C8_witness :
    forwardedParams JSVal.null (JSVal.bool false)
      = (JSVal.obj [("is_active", JSVal.bool false)], JSVal.null) :=
  (C8_param_shaping_amended [] [] (JSVal.bool false) false JSVal.null).2.2 rfl

/-- Counterexample for C8 as stated: forwarding a generic event whose
`additionalParameters` is the plain mapping `{x:7}` with
`isFromUserAction=true` leaves the caller's `event.additionalParameters`
equal to `{x:7, is_active:true}` — the original object was mutated, not
shallow-copied. -/
theorem C8_counterexample :
    (handleClientEvent_ (JSVal.bool true)
        (JSVal.obj [("eventType", JSVal.num 1), ("eventOriginator", JSVal.num 1),
                    ("additionalParameters", JSVal.obj [("x", JSVal.num 7)]),
                    ("isFromUserAction", JSVal.bool true)])
      = Except.ok
          ([Request.event 1 (JSVal.obj [("x", JSVal.num 7), ("is_active", JSVal.bool true)])],
           JSVal.obj [("x", JSVal.num 7), ("is_active", JSVal.bool true)]))
    ∧ JSVal.obj [("x", JSVal.num 7), ("is_active", JSVal.bool true)]
        ≠ JSVal.obj [("x", JSVal.num 7)] :=
  ⟨rfl, by simp⟩

/-- **C9 (amended).**  Once `getClientId_` has cached a truthy (non-null,
non-empty) identifier, the cache is never rewritten and every later call
returns it without consulting the cookie string; but while the cached value
is still `null` (the match failed), each call re-derives the identifier from
the current cookie string and may rewrite the cache (see the
counterexample). -/
theorem C9_client_id_caching_amended (st : PSState) (id : String) (cookie : String) :
    (st.clientId_ = some id → id.isEmpty = false →
       getClientId_ cookie st = (some id, st))
    ∧ (st.clientId_ = none →
       getClientId_ cookie st
         = ((gadsMatch cookie).map encodeURIComponent,
            ⟨(gadsMatch cookie).map encodeURIComponent⟩)) := by
  constructor
  · intro hsome hne
    cases st with
    | mk c =>
      simp only [PSState.mk.injEq] at hsome ⊢
      simp [getClientId_, hsome, hne]
  · intro hnone
    simp [getClientId_, hnone]

/-- Witness for C9 (amended): a cached non-empty identifier is returned
unchanged whatever the current cookie says. -/
theorem C9_witness :
    getClientId_ "__gads=zzz" ⟨some "abc"⟩ = (some "abc", ⟨some "abc"⟩) :=
  (C9_client_id_caching_amended ⟨some "abc"⟩ "abc" "__gads=zzz").1 rfl rfl

/-- Counterexample for C9 as stated: when the first call finds no `__gads`
cookie it caches `null`, and a second call with a changed cookie string
re-derives a fresh identifier and rewrites the cache — so the identifier is
not resolved at most once per component lifetime. -/
theorem C9_counterexample :
    (getClientId_ "a=1" ⟨none⟩).1 = none
    ∧ (getClientId_ "__gads=abc" ((getClientId_ "a=1" ⟨none⟩).2)).1 = some "abc"
    ∧ (getClientId_ "__gads=abc" ((getClientId_ "a=1" ⟨none⟩).2)).2.clientId_ = some "abc" :=
  ⟨rfl, rfl, rfl⟩
